import Mathlib

/-!
Verification of the `object` converter package of the zitadel v2beta gRPC
API (`internal/api/grpc/object/v2beta/converter.go`) together with the
organization-service lifecycle contract exercised by its integration
tests.  Pure conversion functions are embedded directly from the source;
the organization service itself (not part of the sources) is modelled
from the specification's lifecycle contract.
-/

namespace Converter

/-! ## Text-query-method translation (TextMethodToQuery) -/

/-- Modelled from the spec: the protobuf enum `object.TextQueryMethod` is an
open wire enum over int32; the eight recognized values are numbered 0..7 in
declaration order (the declaration file is not among the sources). -/
def TEXT_QUERY_METHOD_EQUALS : Int := 0

def TEXT_QUERY_METHOD_EQUALS_IGNORE_CASE : Int := 1

def TEXT_QUERY_METHOD_STARTS_WITH : Int := 2

def TEXT_QUERY_METHOD_STARTS_WITH_IGNORE_CASE : Int := 3

def TEXT_QUERY_METHOD_CONTAINS : Int := 4

def TEXT_QUERY_METHOD_CONTAINS_IGNORE_CASE : Int := 5

def TEXT_QUERY_METHOD_ENDS_WITH : Int := 6

def TEXT_QUERY_METHOD_ENDS_WITH_IGNORE_CASE : Int := 7

/-- Modelled from the spec: `query.TextComparison` is an integer enumeration
(its declaration in `internal/query` is not among the sources); the eight
valid comparison kinds are consecutively numbered from 0, so the sentinel
`-1` returned by the translator is distinct from all of them. -/
def TextEquals : Int := 0

def TextEqualsIgnoreCase : Int := 1

def TextStartsWith : Int := 2

def TextStartsWithIgnoreCase : Int := 3

def TextContains : Int := 4

def TextContainsIgnoreCase : Int := 5

def TextEndsWith : Int := 6

def TextEndsWithIgnoreCase : Int := 7

/-- The eight recognized `TextQueryMethod` wire values. -/
def recognizedTextMethods : List Int :=
  [TEXT_QUERY_METHOD_EQUALS, TEXT_QUERY_METHOD_EQUALS_IGNORE_CASE,
   TEXT_QUERY_METHOD_STARTS_WITH, TEXT_QUERY_METHOD_STARTS_WITH_IGNORE_CASE,
   TEXT_QUERY_METHOD_CONTAINS, TEXT_QUERY_METHOD_CONTAINS_IGNORE_CASE,
   TEXT_QUERY_METHOD_ENDS_WITH, TEXT_QUERY_METHOD_ENDS_WITH_IGNORE_CASE]

/-- The eight valid `query.TextComparison` kinds. -/
def validTextComparisons : List Int :=
  [TextEquals, TextEqualsIgnoreCase,
   TextStartsWith, TextStartsWithIgnoreCase,
   TextContains, TextContainsIgnoreCase,
   TextEndsWith, TextEndsWithIgnoreCase]

/-- Embeds `TextMethodToQuery` from `converter.go`: a switch over the wire
enum with `default: return -1`. -/
def TextMethodToQuery (method : Int) : Int :=
  if method == TEXT_QUERY_METHOD_EQUALS then TextEquals
  else if method == TEXT_QUERY_METHOD_EQUALS_IGNORE_CASE then TextEqualsIgnoreCase
  else if method == TEXT_QUERY_METHOD_STARTS_WITH then TextStartsWith
  else if method == TEXT_QUERY_METHOD_STARTS_WITH_IGNORE_CASE then TextStartsWithIgnoreCase
  else if method == TEXT_QUERY_METHOD_CONTAINS then TextContains
  else if method == TEXT_QUERY_METHOD_CONTAINS_IGNORE_CASE then TextContainsIgnoreCase
  else if method == TEXT_QUERY_METHOD_ENDS_WITH then TextEndsWith
  else if method == TEXT_QUERY_METHOD_ENDS_WITH_IGNORE_CASE then TextEndsWithIgnoreCase
  else -1

/-! ## Details conversion (DomainToDetailsPb, ToViewDetailsPb, DomainToChangeDetailsPb) -/

/-- `time.Time`, modelled as a natural count of nanoseconds since the zero
time; only `IsZero` and the identity of the value matter to the converters. -/
def Time := Nat

instance : DecidableEq Time := instDecidableEqNat

instance (n : Nat) : OfNat Time n := ⟨(n : Nat)⟩

/-- `time.Time.IsZero`: true exactly on the zero value. -/
def Time.IsZero (t : Time) : Bool := Nat.beq t 0

/-- `timestamppb.Timestamp`, a wrapper around the converted time value. -/
structure Timestamp where
  seconds : Time
deriving DecidableEq

/-- `timestamppb.New`. -/
def timestamppbNew (t : Time) : Timestamp := ⟨t⟩

/-- `domain.ObjectDetails` (the fields the converters read). -/
structure ObjectDetails where
  Sequence : Nat
  ResourceOwner : String
  EventDate : Time
  CreationDate : Time

/-- `object.Details` protobuf message; optional timestamp fields are `none`
when unset on the wire. -/
structure Details where
  Sequence : Nat
  ResourceOwner : String
  ChangeDate : Option Timestamp
  CreationDate : Option Timestamp
deriving DecidableEq

/-- Embeds `DomainToDetailsPb`: copies sequence and resource owner, then sets
each timestamp field only when the corresponding input time is non-zero. -/
def DomainToDetailsPb (objectDetail : ObjectDetails) : Details :=
  let details : Details :=
    { Sequence := objectDetail.Sequence
      ResourceOwner := objectDetail.ResourceOwner
      ChangeDate := none
      CreationDate := none }
  let details :=
    if !objectDetail.EventDate.IsZero then
      { details with ChangeDate := some (timestamppbNew objectDetail.EventDate) }
    else details
  let details :=
    if !objectDetail.CreationDate.IsZero then
      { details with CreationDate := some (timestamppbNew objectDetail.CreationDate) }
    else details
  details

/-- Embeds `ToViewDetailsPb`. -/
def ToViewDetailsPb (sequence : Nat) (creationDate changeDate : Time)
    (resourceOwner : String) : Details :=
  let details : Details :=
    { Sequence := sequence
      ResourceOwner := resourceOwner
      ChangeDate := none
      CreationDate := none }
  let details :=
    if !creationDate.IsZero then
      { details with CreationDate := some (timestamppbNew creationDate) }
    else details
  let details :=
    if !changeDate.IsZero then
      { details with ChangeDate := some (timestamppbNew changeDate) }
    else details
  details

/-- Embeds `DomainToChangeDetailsPb`: like `DomainToDetailsPb` but only the
change date is ever populated; the creation date field is never set. -/
def DomainToChangeDetailsPb (objectDetail : ObjectDetails) : Details :=
  let details : Details :=
    { Sequence := objectDetail.Sequence
      ResourceOwner := objectDetail.ResourceOwner
      ChangeDate := none
      CreationDate := none }
  let details :=
    if !objectDetail.EventDate.IsZero then
      { details with ChangeDate := some (timestamppbNew objectDetail.EventDate) }
    else details
  details

/-! ## List-query translation (ListQueryToQuery, ListQueryToModel) -/

/-- `object.ListQuery` message: offset and limit are unsigned (limit is
uint32 on the wire, widened to uint64 by the translators — an identity on
the represented value), plus the ascending flag. -/
structure ListQuery where
  Offset : Nat
  Limit : Nat
  Asc : Bool

/-- Embeds `ListQueryToQuery`: a nil query yields all-zero values, otherwise
the query's own fields are returned (limit widened). -/
def ListQueryToQuery (query : Option ListQuery) : Nat × Nat × Bool :=
  match query with
  | none => (0, 0, false)
  | some q => (q.Offset, q.Limit, q.Asc)

/-- Embeds `ListQueryToModel`, whose body is identical to
`ListQueryToQuery`. -/
def ListQueryToModel (query : Option ListQuery) : Nat × Nat × Bool :=
  match query with
  | none => (0, 0, false)
  | some q => (q.Offset, q.Limit, q.Asc)

/-! ## Domain-validation-type conversion -/

/-- Modelled from the spec: wire enum `org_pb.DomainValidationType` with
values UNSPECIFIED = 0, DNS = 1, HTTP = 2 (declaration not among the
sources). -/
def DOMAIN_VALIDATION_TYPE_UNSPECIFIED : Int := 0

def DOMAIN_VALIDATION_TYPE_DNS : Int := 1

def DOMAIN_VALIDATION_TYPE_HTTP : Int := 2

/-- Modelled from the spec: internal enum `domain.OrgDomainValidationType`
with values Unspecified = 0, DNS = 1, HTTP = 2 (declaration not among the
sources). -/
def OrgDomainValidationTypeUnspecified : Int := 0

def OrgDomainValidationTypeDNS : Int := 1

def OrgDomainValidationTypeHTTP : Int := 2

/-- Embeds `DomainValidationTypeFromModel`: internal value to wire enum with
default UNSPECIFIED. -/
def DomainValidationTypeFromModel (validationType : Int) : Int :=
  if validationType == OrgDomainValidationTypeDNS then DOMAIN_VALIDATION_TYPE_DNS
  else if validationType == OrgDomainValidationTypeHTTP then DOMAIN_VALIDATION_TYPE_HTTP
  else DOMAIN_VALIDATION_TYPE_UNSPECIFIED

/-- Embeds `DomainValidationTypeToDomain`: wire enum to internal value with
default Unspecified. -/
def DomainValidationTypeToDomain (validationType : Int) : Int :=
  if validationType == DOMAIN_VALIDATION_TYPE_HTTP then OrgDomainValidationTypeHTTP
  else if validationType == DOMAIN_VALIDATION_TYPE_DNS then OrgDomainValidationTypeDNS
  else OrgDomainValidationTypeUnspecified

end Converter

namespace OrgService

/-! ## Organization lifecycle contract

The organization service implementation is not among the sources (only its
black-box integration tests are), so the state machine below is modelled
from the specification's lifecycle contract (§3, §4.2, §7, §8): organization
states ACTIVE/INACTIVE, domain attachment, per-key metadata, and the error
taxonomy observed by the tests. -/

/-- Organization lifecycle state. -/
inductive OrgState where
  | active
  | inactive
deriving DecidableEq

/-- One organization: id, lifecycle state, attached domains, metadata
entries (key, byte-value). -/
structure Org where
  id : String
  state : OrgState
  domains : List String
  metadata : List (String × String)

/-- The service's whole state: the stored organizations. -/
def Store := List Org

/-- Look up an organization by id. -/
def findOrg (orgs : Store) (id : String) : Option Org :=
  List.find? (fun o => o.id == id) orgs

/-- Apply a per-organization update to the organization with the given id. -/
def updateOrg (orgs : Store) (id : String) (f : Org → Org) : Store :=
  List.map (fun o => if o.id == id then f o else o) orgs

/-- Keep the previous state when an operation fails: the server mutates
nothing on error. -/
def runOp (orgs : Store) (r : Except String Store) : Store :=
  match r with
  | .ok next => next
  | .error _ => orgs

/-- State of the organization with the given id, if present. -/
def OrgStateOf (orgs : Store) (id : String) : Option OrgState :=
  Option.map (fun o => o.state) (findOrg orgs id)

/-- Modelled from the spec: `DeactivateOrganization` — not-found error for a
missing organization, conflict error when already INACTIVE, otherwise the
state switches to INACTIVE. -/
def DeactivateOrganization (orgs : Store) (id : String) : Except String Store :=
  match findOrg orgs id with
  | none => .error "Organisation not found"
  | some o =>
    if o.state == .inactive then .error "Organisation is already deactivated"
    else .ok (updateOrg orgs id (fun x => { x with state := .inactive }))

/-- Modelled from the spec: `ReactivateOrganization` — not-found error for a
missing organization, conflict error when already ACTIVE, otherwise the
state switches to ACTIVE. -/
def ReactivateOrganization (orgs : Store) (id : String) : Except String Store :=
  match findOrg orgs id with
  | none => .error "Organisation not found"
  | some o =>
    if o.state == .active then .error "Organisation is already active"
    else .ok (updateOrg orgs id (fun x => { x with state := .active }))

/-- Modelled from the spec: `DeleteOrganization` — not-found error for a
missing organization, otherwise the organization is removed terminally. -/
def DeleteOrganization (orgs : Store) (id : String) : Except String Store :=
  match findOrg orgs id with
  | none => .error "Organisation not found"
  | some _ => .ok (List.filter (fun o => o.id != id) orgs)

/-- Modelled from the spec: `ListOrganizations` with an id filter — a plain
query that never errors, returning the matching organizations. -/
def ListOrganizationsById (orgs : Store) (id : String) : List Org :=
  List.filter (fun o => o.id == id) orgs

/-- Modelled from the spec: `AddOrganizationDomain` — not-found error for a
missing organization, AlreadyExists error when the domain is already
attached, otherwise the domain is appended. -/
def AddOrganizationDomain (orgs : Store) (id dom : String) : Except String Store :=
  match findOrg orgs id with
  | none => .error "Organisation not found"
  | some o =>
    if o.domains.contains dom then .error "Errors.Already.Exists"
    else .ok (updateOrg orgs id (fun x => { x with domains := x.domains ++ [dom] }))

/-- Modelled from the spec: `ListOrganizationDomains` — the domains attached
to the organization, empty for an unknown organization. -/
def ListOrganizationDomains (orgs : Store) (id : String) : List String :=
  match findOrg orgs id with
  | none => []
  | some o => o.domains

/-- Modelled from the spec: `DeleteOrganizationMetadata` — every requested
key must currently exist (a missing organization has no keys); otherwise
the whole batch is rejected with one error and nothing is deleted. On
success exactly the requested keys are removed. -/
def DeleteOrganizationMetadata (orgs : Store) (id : String) (keys : List String) :
    Except String Store :=
  let existing :=
    match findOrg orgs id with
    | none => []
    | some o => o.metadata
  if keys.all (fun k => existing.any (fun kv => kv.fst == k)) then
    .ok (updateOrg orgs id (fun x =>
      { x with metadata := x.metadata.filter (fun kv => !(keys.contains kv.fst)) }))
  else
    .error "Metadata list is empty"

/-- Result of generating a domain-validation challenge. -/
structure DomainValidation where
  Token : String
  Url : String

/-- Modelled from the spec: `GenerateOrganizationDomainValidation` — when the
organization cannot be resolved, or the domain is not attached to it, both
failures collapse to the same "doesn't exist" error message; on success a
non-empty token and a URL containing the domain are returned. The
validation type (DNS or HTTP wire value) does not change the outcome
shape. -/
def GenerateOrganizationDomainValidation (orgs : Store) (id dom : String)
    (validationType : Int) : Except String DomainValidation :=
  match findOrg orgs id with
  | none => .error "Domain doesn't exist on organization"
  | some o =>
    if o.domains.contains dom then
      .ok { Token := "validation-token"
            Url :=
              if validationType == Converter.DOMAIN_VALIDATION_TYPE_DNS then
                "_zitadel-challenge." ++ dom ++ ""
              else
                "https://" ++ dom ++ "/.well-known/zitadel-challenge" }
    else .error "Domain doesn't exist on organization"

/-- A string contains another as a contiguous substring. -/
def StrContains (s sub : String) : Prop :=
  ∃ pre suf, s = pre ++ sub ++ suf

end OrgService

namespace OrgService

/-! ## Helper lemmas about the store -/

/-- Updating the organization with a given id commutes with looking it up,
whenever the update preserves the id. -/
theorem findOrg_updateOrg (orgs : Store) (id : String) (f : Org → Org)
    (hf : ∀ x, (f x).id = x.id) :
    findOrg (updateOrg orgs id f) id = Option.map f (findOrg orgs id) := by
  induction orgs with
  | nil => rfl
  | cons o rest ih =>
    by_cases ho : o.id = id
    · simp [findOrg, updateOrg, List.find?, ho, hf o]
    · have hb : (o.id == id) = false := by simp [ho]
      simp only [findOrg, updateOrg, List.map, List.find?, hb, if_neg]
      simpa [findOrg, updateOrg, hb] using ih

/-- The lifecycle state seen through `OrgStateOf` after a state update. -/
theorem OrgStateOf_updateOrg (orgs : Store) (id : String) (st : OrgState) :
    OrgStateOf (updateOrg orgs id (fun x => { x with state := st })) id
      = Option.map (fun _ => st) (findOrg orgs id) := by
  unfold OrgStateOf
  rw [findOrg_updateOrg orgs id (fun x => { x with state := st }) (fun x => rfl)]
  cases findOrg orgs id <;> rfl

/-- Filtering for an id among organizations already filtered to other ids is
empty. -/
theorem filter_eq_of_filter_ne (orgs : Store) (id : String) :
    List.filter (fun o => o.id == id) (List.filter (fun o => o.id != id) orgs) = [] := by
  induction orgs with
  | nil => rfl
  | cons o rest ih =>
    by_cases ho : o.id = id
    · have hb : (o.id != id) = false := by simp [ho]
      rw [List.filter_cons, hb]
      simp only [Bool.false_eq_true, if_false]
      exact ih
    · have hb2 : (o.id != id) = true := by simp [ho]
      have hb : (o.id == id) = false := by simp [ho]
      rw [List.filter_cons, hb2]
      simp only [if_true]
      rw [List.filter_cons, hb]
      simp only [Bool.false_eq_true, if_false]
      exact ih

end OrgService

/-! ## Claim theorems -/

/-- C3: deactivating an organization that is already INACTIVE fails with the
conflict error and leaves the stored state INACTIVE; reactivating one that
is already ACTIVE fails with the conflict error and leaves it ACTIVE;
deactivating an ACTIVE organization and reactivating an INACTIVE one
succeed and switch the state. -/
theorem deactivateReactivate_conflict_contract (orgs : OrgService.Store)
    (o : OrgService.Org) (h : OrgService.findOrg orgs o.id = some o) :
    (o.state = .inactive →
      OrgService.DeactivateOrganization orgs o.id
        = .error "Organisation is already deactivated" ∧
      OrgService.OrgStateOf
          (OrgService.runOp orgs (OrgService.DeactivateOrganization orgs o.id)) o.id
        = some .inactive) ∧
    (o.state = .active →
      OrgService.ReactivateOrganization orgs o.id
        = .error "Organisation is already active" ∧
      OrgService.OrgStateOf
          (OrgService.runOp orgs (OrgService.ReactivateOrganization orgs o.id)) o.id
        = some .active) ∧
    (o.state = .active →
      ∃ s, OrgService.DeactivateOrganization orgs o.id = .ok s ∧
        OrgService.OrgStateOf s o.id = some .inactive) ∧
    (o.state = .inactive →
      ∃ s, OrgService.ReactivateOrganization orgs o.id = .ok s ∧
        OrgService.OrgStateOf s o.id = some .active) := by
  refine ⟨fun hs => ?_, fun hs => ?_, fun hs => ?_, fun hs => ?_⟩
  · have he : OrgService.DeactivateOrganization orgs o.id
        = .error "Organisation is already deactivated" := by
      unfold OrgService.DeactivateOrganization
      rw [h]
      simp [hs]
    refine ⟨he, ?_⟩
    rw [he]
    simp [OrgService.runOp, OrgService.OrgStateOf, h, hs]
  · have he : OrgService.ReactivateOrganization orgs o.id
        = .error "Organisation is already active" := by
      unfold OrgService.ReactivateOrganization
      rw [h]
      simp [hs]
    refine ⟨he, ?_⟩
    rw [he]
    simp [OrgService.runOp, OrgService.OrgStateOf, h, hs]
  · refine ⟨OrgService.updateOrg orgs o.id (fun x => { x with state := .inactive }), ?_, ?_⟩
    · unfold OrgService.DeactivateOrganization
      rw [h]
      simp [hs]
    · rw [OrgService.OrgStateOf_updateOrg, h]
      rfl
  · refine ⟨OrgService.updateOrg orgs o.id (fun x => { x with state := .active }), ?_, ?_⟩
    · unfold OrgService.ReactivateOrganization
      rw [h]
      simp [hs]
    · rw [OrgService.OrgStateOf_updateOrg, h]
      rfl

/-- Sample organization used to instantiate the lifecycle theorems. -/
def sampleOrg : OrgService.Org :=
  { id := "org1", state := .active, domains := ["www.domain.com"],
    metadata := [("key1", "value1"), ("key2", "value2")] }

/-- Second sample organization. -/
def sampleOrg2 : OrgService.Org :=
  { id := "org2", state := .inactive, domains := [], metadata := [] }

/-- Sample store holding the two sample organizations. -/
def sampleStore : OrgService.Store := [sampleOrg, sampleOrg2]

/-- C3 witness: deactivating the ACTIVE sample organization succeeds and its
state becomes INACTIVE. -/
theorem deactivateReactivate_conflict_contract_witness :
    ∃ s, OrgService.DeactivateOrganization sampleStore "org1" = .ok s ∧
      OrgService.OrgStateOf s "org1" = some .inactive :=
  (deactivateReactivate_conflict_contract sampleStore sampleOrg rfl).2.2.1 rfl

/-- C7: after a successful DeleteOrganization, listing organizations
filtered by that id returns the empty result set (and, being a plain query,
cannot fail). -/
theorem DeleteOrganization_list_empty (orgs : OrgService.Store) (id : String)
    (s : OrgService.Store) (h : OrgService.DeleteOrganization orgs id = .ok s) :
    OrgService.ListOrganizationsById s id = [] := by
  unfold OrgService.DeleteOrganization at h
  cases hf : OrgService.findOrg orgs id with
  | none => rw [hf] at h; cases h
  | some o =>
    rw [hf] at h
    cases h
    exact OrgService.filter_eq_of_filter_ne orgs id

/-- C7 witness: deleting the first sample organization leaves a store in
which listing by its id returns the empty list. -/
theorem DeleteOrganization_list_empty_witness :
    OrgService.ListOrganizationsById [sampleOrg2] "org1" = [] :=
  DeleteOrganization_list_empty sampleStore "org1" [sampleOrg2] rfl

/-- C1: every input outside the eight recognized TextQueryMethod values maps
to the invalid sentinel comparison `-1`, which is none of the eight valid
comparison kinds; each recognized value maps to its corresponding
comparison kind. -/
theorem TextMethodToQuery_sentinel_and_mapping (m : Int) :
    (m ∉ Converter.recognizedTextMethods →
      Converter.TextMethodToQuery m = -1 ∧
      Converter.TextMethodToQuery m ∉ Converter.validTextComparisons) ∧
    (Converter.TextMethodToQuery Converter.TEXT_QUERY_METHOD_EQUALS
        = Converter.TextEquals ∧
     Converter.TextMethodToQuery Converter.TEXT_QUERY_METHOD_EQUALS_IGNORE_CASE
        = Converter.TextEqualsIgnoreCase ∧
     Converter.TextMethodToQuery Converter.TEXT_QUERY_METHOD_STARTS_WITH
        = Converter.TextStartsWith ∧
     Converter.TextMethodToQuery Converter.TEXT_QUERY_METHOD_STARTS_WITH_IGNORE_CASE
        = Converter.TextStartsWithIgnoreCase ∧
     Converter.TextMethodToQuery Converter.TEXT_QUERY_METHOD_CONTAINS
        = Converter.TextContains ∧
     Converter.TextMethodToQuery Converter.TEXT_QUERY_METHOD_CONTAINS_IGNORE_CASE
        = Converter.TextContainsIgnoreCase ∧
     Converter.TextMethodToQuery Converter.TEXT_QUERY_METHOD_ENDS_WITH
        = Converter.TextEndsWith ∧
     Converter.TextMethodToQuery Converter.TEXT_QUERY_METHOD_ENDS_WITH_IGNORE_CASE
        = Converter.TextEndsWithIgnoreCase) := by
  refine ⟨fun h => ?_, by decide⟩
  simp only [Converter.recognizedTextMethods, Converter.TEXT_QUERY_METHOD_EQUALS,
    Converter.TEXT_QUERY_METHOD_EQUALS_IGNORE_CASE, Converter.TEXT_QUERY_METHOD_STARTS_WITH,
    Converter.TEXT_QUERY_METHOD_STARTS_WITH_IGNORE_CASE, Converter.TEXT_QUERY_METHOD_CONTAINS,
    Converter.TEXT_QUERY_METHOD_CONTAINS_IGNORE_CASE, Converter.TEXT_QUERY_METHOD_ENDS_WITH,
    Converter.TEXT_QUERY_METHOD_ENDS_WITH_IGNORE_CASE, List.mem_cons, List.not_mem_nil,
    or_false, not_or] at h
  obtain ⟨h0, h1, h2, h3, h4, h5, h6, h7⟩ := h
  have he : Converter.TextMethodToQuery m = -1 := by
    simp [Converter.TextMethodToQuery, Converter.TEXT_QUERY_METHOD_EQUALS,
      Converter.TEXT_QUERY_METHOD_EQUALS_IGNORE_CASE, Converter.TEXT_QUERY_METHOD_STARTS_WITH,
      Converter.TEXT_QUERY_METHOD_STARTS_WITH_IGNORE_CASE, Converter.TEXT_QUERY_METHOD_CONTAINS,
      Converter.TEXT_QUERY_METHOD_CONTAINS_IGNORE_CASE, Converter.TEXT_QUERY_METHOD_ENDS_WITH,
      Converter.TEXT_QUERY_METHOD_ENDS_WITH_IGNORE_CASE, h0, h1, h2, h3, h4, h5, h6, h7]
  refine ⟨he, ?_⟩
  rw [he]
  decide

/-- C1 witness: the unrecognized wire value 9 maps to the sentinel -1. -/
theorem TextMethodToQuery_sentinel_and_mapping_witness :
    Converter.TextMethodToQuery 9 = -1 :=
  ((TextMethodToQuery_sentinel_and_mapping 9).1 (by decide)).1

/-- C4 counterexample: `DomainToChangeDetailsPb` on an input whose creation
date is non-zero leaves the output's creation-date field unset instead of
setting it to the converted timestamp, contradicting the claim's "set it to
the converted timestamp otherwise" for that converter. -/
theorem DomainToChangeDetailsPb_counterexample :
    ((⟨1, "owner", 2, 3⟩ : Converter.ObjectDetails).CreationDate.IsZero = false) ∧
    (Converter.DomainToChangeDetailsPb ⟨1, "owner", 2, 3⟩).CreationDate
      ≠ some (Converter.timestamppbNew
          (⟨1, "owner", 2, 3⟩ : Converter.ObjectDetails).CreationDate) ∧
    (Converter.DomainToChangeDetailsPb ⟨1, "owner", 2, 3⟩).CreationDate = none := by
  refine ⟨by decide, by decide, by decide⟩

/-- C4 (amended): `DomainToDetailsPb` and `ToViewDetailsPb` omit each
timestamp field exactly when the corresponding input timestamp is zero and
set it to the converted timestamp otherwise; `DomainToChangeDetailsPb` does
the same for its change-date field but always leaves the creation-date
field unset, regardless of the input creation date. -/
theorem detailsPb_timestamp_fields (d : Converter.ObjectDetails) (sequence : Nat)
    (creationDate changeDate : Converter.Time) (resourceOwner : String) :
    ((Converter.DomainToDetailsPb d).ChangeDate
        = if d.EventDate.IsZero then none
          else some (Converter.timestamppbNew d.EventDate)) ∧
    ((Converter.DomainToDetailsPb d).CreationDate
        = if d.CreationDate.IsZero then none
          else some (Converter.timestamppbNew d.CreationDate)) ∧
    ((Converter.ToViewDetailsPb sequence creationDate changeDate resourceOwner).CreationDate
        = if creationDate.IsZero then none
          else some (Converter.timestamppbNew creationDate)) ∧
    ((Converter.ToViewDetailsPb sequence creationDate changeDate resourceOwner).ChangeDate
        = if changeDate.IsZero then none
          else some (Converter.timestamppbNew changeDate)) ∧
    ((Converter.DomainToChangeDetailsPb d).ChangeDate
        = if d.EventDate.IsZero then none
          else some (Converter.timestamppbNew d.EventDate)) ∧
    ((Converter.DomainToChangeDetailsPb d).CreationDate = none) := by
  refine ⟨?_, ?_, ?_, ?_, ?_, ?_⟩ <;>
    simp only [Converter.DomainToDetailsPb, Converter.ToViewDetailsPb,
      Converter.DomainToChangeDetailsPb] <;>
    cases he : d.EventDate.IsZero <;>
    cases hc : d.CreationDate.IsZero <;>
    cases hcr : creationDate.IsZero <;>
    cases hch : changeDate.IsZero <;>
    simp [he, hc, hcr, hch]

/-- C5: the list-query translator returns (0, 0, false) for an absent query
and the query's own offset, limit (widened) and ascending flag otherwise. -/
theorem ListQueryToQuery_contract :
    Converter.ListQueryToQuery none = (0, 0, false) ∧
    ∀ q : Converter.ListQuery,
      Converter.ListQueryToQuery (some q) = (q.Offset, q.Limit, q.Asc) :=
  ⟨rfl, fun _ => rfl⟩

/-- C9: `ListQueryToQuery` and `ListQueryToModel` agree on every input,
including the absent query. -/
theorem ListQueryToQuery_eq_ListQueryToModel (query : Option Converter.ListQuery) :
    Converter.ListQueryToQuery query = Converter.ListQueryToModel query := by
  cases query <;> rfl

/-- C10: the two domain-validation-type converters are mutually inverse on
the canonical values Unspecified, DNS and HTTP, and each maps every
unrecognized input to its respective Unspecified value. -/
theorem DomainValidationType_inverse (v p : Int) :
    (Converter.DomainValidationTypeToDomain
        (Converter.DomainValidationTypeFromModel Converter.OrgDomainValidationTypeUnspecified)
        = Converter.OrgDomainValidationTypeUnspecified ∧
     Converter.DomainValidationTypeToDomain
        (Converter.DomainValidationTypeFromModel Converter.OrgDomainValidationTypeDNS)
        = Converter.OrgDomainValidationTypeDNS ∧
     Converter.DomainValidationTypeToDomain
        (Converter.DomainValidationTypeFromModel Converter.OrgDomainValidationTypeHTTP)
        = Converter.OrgDomainValidationTypeHTTP ∧
     Converter.DomainValidationTypeFromModel
        (Converter.DomainValidationTypeToDomain Converter.DOMAIN_VALIDATION_TYPE_UNSPECIFIED)
        = Converter.DOMAIN_VALIDATION_TYPE_UNSPECIFIED ∧
     Converter.DomainValidationTypeFromModel
        (Converter.DomainValidationTypeToDomain Converter.DOMAIN_VALIDATION_TYPE_DNS)
        = Converter.DOMAIN_VALIDATION_TYPE_DNS ∧
     Converter.DomainValidationTypeFromModel
        (Converter.DomainValidationTypeToDomain Converter.DOMAIN_VALIDATION_TYPE_HTTP)
        = Converter.DOMAIN_VALIDATION_TYPE_HTTP) ∧
    (v ≠ Converter.OrgDomainValidationTypeDNS → v ≠ Converter.OrgDomainValidationTypeHTTP →
      Converter.DomainValidationTypeFromModel v
        = Converter.DOMAIN_VALIDATION_TYPE_UNSPECIFIED) ∧
    (p ≠ Converter.DOMAIN_VALIDATION_TYPE_DNS → p ≠ Converter.DOMAIN_VALIDATION_TYPE_HTTP →
      Converter.DomainValidationTypeToDomain p
        = Converter.OrgDomainValidationTypeUnspecified) := by
  refine ⟨by decide, fun h1 h2 => ?_, fun h1 h2 => ?_⟩
  · simp only [Converter.OrgDomainValidationTypeDNS,
      Converter.OrgDomainValidationTypeHTTP] at h1 h2
    simp [Converter.DomainValidationTypeFromModel, Converter.OrgDomainValidationTypeDNS,
      Converter.OrgDomainValidationTypeHTTP, h1, h2]
  · simp only [Converter.DOMAIN_VALIDATION_TYPE_DNS,
      Converter.DOMAIN_VALIDATION_TYPE_HTTP] at h1 h2
    simp [Converter.DomainValidationTypeToDomain, Converter.DOMAIN_VALIDATION_TYPE_DNS,
      Converter.DOMAIN_VALIDATION_TYPE_HTTP, h1, h2]

/-- C10 witness: the unrecognized values 7 and 9 map to the respective
Unspecified values. -/
theorem DomainValidationType_inverse_witness :
    Converter.DomainValidationTypeFromModel 7
      = Converter.DOMAIN_VALIDATION_TYPE_UNSPECIFIED ∧
    Converter.DomainValidationTypeToDomain 9
      = Converter.OrgDomainValidationTypeUnspecified :=
  ⟨(DomainValidationType_inverse 7 9).2.1 (by decide) (by decide),
   (DomainValidationType_inverse 7 9).2.2 (by decide) (by decide)⟩

/-- C2: when every requested metadata key exists on the organization, the
batch delete succeeds and exactly the requested keys are removed (an entry
survives iff it was present and its key was not requested); when some
requested key is absent — in particular when the organization itself does
not exist — the whole batch is rejected with the single error and the store
is unchanged. -/
theorem DeleteOrganizationMetadata_batch_contract (orgs : OrgService.Store)
    (id : String) (keys : List String) :
    (∀ o, OrgService.findOrg orgs id = some o →
      ((keys.all (fun k => o.metadata.any (fun kv => kv.fst == k)) = true →
        ∃ s, OrgService.DeleteOrganizationMetadata orgs id keys = .ok s ∧
          ∃ o2, OrgService.findOrg s id = some o2 ∧
            ∀ kv, kv ∈ o2.metadata ↔ (kv ∈ o.metadata ∧ keys.contains kv.fst = false)) ∧
       (keys.all (fun k => o.metadata.any (fun kv => kv.fst == k)) = false →
        OrgService.DeleteOrganizationMetadata orgs id keys = .error "Metadata list is empty" ∧
        OrgService.runOp orgs (OrgService.DeleteOrganizationMetadata orgs id keys) = orgs))) ∧
    (OrgService.findOrg orgs id = none → keys ≠ [] →
      OrgService.DeleteOrganizationMetadata orgs id keys = .error "Metadata list is empty" ∧
      OrgService.runOp orgs (OrgService.DeleteOrganizationMetadata orgs id keys) = orgs) := by
  constructor
  · intro o ho
    constructor
    · intro hall
      have heq : OrgService.DeleteOrganizationMetadata orgs id keys
          = .ok (OrgService.updateOrg orgs id (fun x =>
              { x with metadata := x.metadata.filter (fun kv => !(keys.contains kv.fst)) })) := by
        unfold OrgService.DeleteOrganizationMetadata
        rw [ho]
        simp [hall]
      refine ⟨_, heq,
        ⟨{ o with metadata := o.metadata.filter (fun kv => !(keys.contains kv.fst)) }, ?_, ?_⟩⟩
      · rw [OrgService.findOrg_updateOrg orgs id
          (fun x => { x with metadata := x.metadata.filter (fun kv => !(keys.contains kv.fst)) })
          (fun x => rfl), ho]
        rfl
      · intro kv
        simp [List.mem_filter]
    · intro hfalse
      have heq : OrgService.DeleteOrganizationMetadata orgs id keys
          = .error "Metadata list is empty" := by
        unfold OrgService.DeleteOrganizationMetadata
        rw [ho]
        simp [hfalse]
      exact ⟨heq, by rw [heq]; rfl⟩
  · intro hn hne
    have hall : (keys.all (fun k =>
        List.any ([] : List (String × String)) (fun kv => kv.fst == k))) = false := by
      cases keys with
      | nil => exact absurd rfl hne
      | cons k ks => simp
    have heq : OrgService.DeleteOrganizationMetadata orgs id keys
        = .error "Metadata list is empty" := by
      unfold OrgService.DeleteOrganizationMetadata
      rw [hn]
      simp only [hall]
      simp
    exact ⟨heq, by rw [heq]; rfl⟩

/-- C2 witness: deleting the existing key "key1" from the sample
organization succeeds and leaves exactly the entries with unrequested
keys. -/
theorem DeleteOrganizationMetadata_batch_contract_witness :
    ∃ s, OrgService.DeleteOrganizationMetadata sampleStore "org1" ["key1"] = .ok s ∧
      ∃ o2, OrgService.findOrg s "org1" = some o2 ∧
        ∀ kv, kv ∈ o2.metadata ↔
          (kv ∈ sampleOrg.metadata ∧ (["key1"].contains kv.fst) = false) :=
  ((DeleteOrganizationMetadata_batch_contract sampleStore "org1" ["key1"]).1
    sampleOrg rfl).1 rfl

/-- C6: adding a domain that is not yet attached succeeds; adding the same
domain again fails with the AlreadyExists error, and the domain appears
exactly once in the organization's domain list. -/
theorem AddOrganizationDomain_duplicate_contract (orgs : OrgService.Store)
    (o : OrgService.Org) (dom : String)
    (h : OrgService.findOrg orgs o.id = some o)
    (hd : o.domains.contains dom = false) :
    ∃ s, OrgService.AddOrganizationDomain orgs o.id dom = .ok s ∧
      OrgService.AddOrganizationDomain s o.id dom = .error "Errors.Already.Exists" ∧
      (OrgService.ListOrganizationDomains s o.id).count dom = 1 := by
  have hf2 : OrgService.findOrg
      (OrgService.updateOrg orgs o.id (fun x => { x with domains := x.domains ++ [dom] })) o.id
      = some { o with domains := o.domains ++ [dom] } := by
    rw [OrgService.findOrg_updateOrg orgs o.id
      (fun x => { x with domains := x.domains ++ [dom] }) (fun x => rfl), h]
    rfl
  have hmem : dom ∉ o.domains := by simpa using hd
  refine ⟨OrgService.updateOrg orgs o.id (fun x => { x with domains := x.domains ++ [dom] }),
    ?_, ?_, ?_⟩
  · unfold OrgService.AddOrganizationDomain
    rw [h]
    simp [hd, hmem]
  · unfold OrgService.AddOrganizationDomain
    rw [hf2]
    simp
  · unfold OrgService.ListOrganizationDomains
    rw [hf2]
    simp [List.count_append, List.count_eq_zero.mpr hmem]

/-- C6 witness: attaching the fresh domain "www.new.com" to the sample
organization succeeds once, fails the second time, and the domain is listed
exactly once. -/
theorem AddOrganizationDomain_duplicate_contract_witness :
    ∃ s, OrgService.AddOrganizationDomain sampleStore "org1" "www.new.com" = .ok s ∧
      OrgService.AddOrganizationDomain s "org1" "www.new.com"
        = .error "Errors.Already.Exists" ∧
      (OrgService.ListOrganizationDomains s "org1").count "www.new.com" = 1 :=
  AddOrganizationDomain_duplicate_contract sampleStore sampleOrg "www.new.com" rfl rfl

/-- C8: generating a domain-validation challenge fails with the one shared
"doesn't exist" error message both when the organization cannot be resolved
and when the domain is not attached to it; when both resolve, it succeeds
with a non-empty token and a URL containing the domain. -/
theorem GenerateOrganizationDomainValidation_contract (orgs : OrgService.Store)
    (id dom : String) (validationType : Int) :
    (OrgService.findOrg orgs id = none →
      OrgService.GenerateOrganizationDomainValidation orgs id dom validationType
        = .error "Domain doesn't exist on organization") ∧
    (∀ o, OrgService.findOrg orgs id = some o → o.domains.contains dom = false →
      OrgService.GenerateOrganizationDomainValidation orgs id dom validationType
        = .error "Domain doesn't exist on organization") ∧
    (∀ o, OrgService.findOrg orgs id = some o → o.domains.contains dom = true →
      ∃ r, OrgService.GenerateOrganizationDomainValidation orgs id dom validationType
          = .ok r ∧
        r.Token ≠ "" ∧ OrgService.StrContains r.Url dom) := by
  refine ⟨fun hn => ?_, fun o ho hd => ?_, fun o ho hd => ?_⟩
  · unfold OrgService.GenerateOrganizationDomainValidation
    rw [hn]
  · have hmem2 : dom ∉ o.domains := by simpa using hd
    unfold OrgService.GenerateOrganizationDomainValidation
    rw [ho]
    simp [hd, hmem2]
  · have hmem3 : dom ∈ o.domains := by simpa using hd
    have heq : OrgService.GenerateOrganizationDomainValidation orgs id dom validationType
        = .ok { Token := "validation-token"
                Url :=
                  if validationType == Converter.DOMAIN_VALIDATION_TYPE_DNS then
                    "_zitadel-challenge." ++ dom ++ ""
                  else
                    "https://" ++ dom ++ "/.well-known/zitadel-challenge" } := by
      unfold OrgService.GenerateOrganizationDomainValidation
      rw [ho]
      simp [hd, hmem3]
    refine ⟨_, heq, ?_, ?_⟩
    · show ("validation-token" : String) ≠ ""
      decide
    cases hv : (validationType == Converter.DOMAIN_VALIDATION_TYPE_DNS) with
    | true => exact ⟨"_zitadel-challenge.", "", by simp [hv]⟩
    | false => exact ⟨"https://", "/.well-known/zitadel-challenge", by simp [hv]⟩

/-- C8 witness: for the sample organization and its attached domain, the
HTTP validation challenge is generated with a non-empty token and a URL
containing the domain. -/
theorem GenerateOrganizationDomainValidation_contract_witness :
    ∃ r, OrgService.GenerateOrganizationDomainValidation sampleStore "org1"
        "www.domain.com" Converter.DOMAIN_VALIDATION_TYPE_HTTP = .ok r ∧
      r.Token ≠ "" ∧ OrgService.StrContains r.Url "www.domain.com" :=
  (GenerateOrganizationDomainValidation_contract sampleStore "org1" "www.domain.com"
    Converter.DOMAIN_VALIDATION_TYPE_HTTP).2.2 sampleOrg rfl rfl
